import Mathlib

/-!
Verification of the Mechanical-Cycles thermodynamic calculators.

This file shallowly embeds the solver functions of the repository
(`otto.py`, `diesel.py`, `dual.py`, `bryton.py`, `mechanical_cycles.py`)
as Lean definitions over the real numbers and settles the frozen claims
about them.

Modelling conventions, applied uniformly:
* Python floats are modelled as real numbers (`ℝ`); float literals such
  as `1.4` denote the exact rational the source writes.
* Python `x ** y` on floats is modelled by `Real.rpow`.
* An optional argument that may be `None` is an `Option ℝ`; `is not None`
  checks become matches on the option, and Python truthiness of a float
  (`if x:`) becomes a `≠ 0` test on the payload.
* Division is Lean's total division.  Python instead raises
  `ZeroDivisionError`; every theorem below is stated with hypotheses (or
  at concrete inputs) keeping all denominators the source actually
  divides by nonzero, so the embedding and the source agree on the
  relevant inputs.  The few exception paths a claim depends on
  (`TypeError` on `None` arithmetic, the `NameError` in the Diesel heat
  branch) are modelled explicitly as error results.
* Each Python result-dictionary key becomes an `Option ℝ` field of a
  result structure: the field is `some v` exactly when the source would
  have stored `v` under that key.
-/

open Classical

/-! ## Constant-exponent evaluation helpers

The solvers use the fixed air constants `k = 1.4`, so the polytropic
exponents are `k - 1 = 2/5`, `(k-1)/k = 2/7` and `1/k = 5/7`.  The
following lemmas evaluate the resulting `rpow` terms at the powers of
two used as concrete test inputs. -/

lemma rpow_of_pow_eq {b : ℝ} {n : ℕ} {e : ℝ} {m : ℕ} (hb : 0 ≤ b)
    (he : (n : ℝ) * e = (m : ℝ)) : (b ^ n : ℝ) ^ e = b ^ m := by
  rw [← Real.rpow_natCast b n, ← Real.rpow_mul hb, he, Real.rpow_natCast]

lemma rpow_128_two_sevenths : (128 : ℝ) ^ ((2 : ℝ) / 7) = 4 := by
  have h : ((128 : ℝ)) = (2 : ℝ) ^ (7 : ℕ) := by norm_num
  rw [h, rpow_of_pow_eq (by norm_num) (by norm_num : ((7 : ℕ) : ℝ) * ((2 : ℝ) / 7) = ((2 : ℕ) : ℝ))]
  norm_num

lemma rpow_inv128_two_sevenths : ((1 : ℝ) / 128) ^ ((2 : ℝ) / 7) = 1 / 4 := by
  rw [one_div, Real.inv_rpow (by norm_num : (0:ℝ) ≤ 128), rpow_128_two_sevenths]
  norm_num

lemma rpow_16384_two_sevenths : (16384 : ℝ) ^ ((2 : ℝ) / 7) = 16 := by
  have h : ((16384 : ℝ)) = (2 : ℝ) ^ (14 : ℕ) := by norm_num
  rw [h, rpow_of_pow_eq (by norm_num)
    (by norm_num : ((14 : ℕ) : ℝ) * ((2 : ℝ) / 7) = ((4 : ℕ) : ℝ))]
  norm_num

lemma rpow_inv16384_two_sevenths : ((1 : ℝ) / 16384) ^ ((2 : ℝ) / 7) = 1 / 16 := by
  rw [one_div, Real.inv_rpow (by norm_num : (0:ℝ) ≤ 16384), rpow_16384_two_sevenths]
  norm_num

lemma rpow_32_two_fifths : (32 : ℝ) ^ ((2 : ℝ) / 5) = 4 := by
  have h : ((32 : ℝ)) = (2 : ℝ) ^ (5 : ℕ) := by norm_num
  rw [h, rpow_of_pow_eq (by norm_num) (by norm_num : ((5 : ℕ) : ℝ) * ((2 : ℝ) / 5) = ((2 : ℕ) : ℝ))]
  norm_num

lemma rpow_1024_two_fifths : (1024 : ℝ) ^ ((2 : ℝ) / 5) = 16 := by
  have h : ((1024 : ℝ)) = (2 : ℝ) ^ (10 : ℕ) := by norm_num
  rw [h, rpow_of_pow_eq (by norm_num)
    (by norm_num : ((10 : ℕ) : ℝ) * ((2 : ℝ) / 5) = ((4 : ℕ) : ℝ))]
  norm_num

lemma rpow_32_seven_fifths : (32 : ℝ) ^ ((7 : ℝ) / 5) = 128 := by
  have h : ((32 : ℝ)) = (2 : ℝ) ^ (5 : ℕ) := by norm_num
  rw [h, rpow_of_pow_eq (by norm_num) (by norm_num : ((5 : ℕ) : ℝ) * ((7 : ℝ) / 5) = ((7 : ℕ) : ℝ))]
  norm_num

/-- Two-sided bound on `8 ^ (2/5) = 2 ^ (6/5)`, certified by fifth powers. -/
lemma rpow_8_two_fifths_bounds :
    (2.2973966 : ℝ) < (8 : ℝ) ^ ((2 : ℝ) / 5) ∧ (8 : ℝ) ^ ((2 : ℝ) / 5) < 2.2973968 := by
  have h8 : (((8 : ℝ)) ^ ((2 : ℝ) / 5)) ^ (5 : ℕ) = 64 := by
    rw [← Real.rpow_natCast ((8:ℝ) ^ ((2:ℝ)/5)) 5, ← Real.rpow_mul (by norm_num : (0:ℝ) ≤ 8)]
    rw [show (2 : ℝ) / 5 * ((5 : ℕ) : ℝ) = 2 by norm_num]
    rw [show (2 : ℝ) = ((2 : ℕ) : ℝ) by norm_num, Real.rpow_natCast]
    norm_num
  have hpos : (0 : ℝ) < (8 : ℝ) ^ ((2 : ℝ) / 5) := Real.rpow_pos_of_pos (by norm_num) _
  constructor
  · by_contra hc
    push_neg at hc
    have h5 : ((8 : ℝ) ^ ((2 : ℝ) / 5)) ^ (5 : ℕ) ≤ (2.2973966 : ℝ) ^ (5 : ℕ) :=
      pow_le_pow_left₀ (le_of_lt hpos) hc 5
    rw [h8] at h5
    norm_num at h5
  · by_contra hc
    push_neg at hc
    have h5 : (2.2973968 : ℝ) ^ (5 : ℕ) ≤ ((8 : ℝ) ^ ((2 : ℝ) / 5)) ^ (5 : ℕ) :=
      pow_le_pow_left₀ (by norm_num) hc 5
    rw [h8] at h5
    norm_num at h5

/-! ## Otto cycle (`otto.py`, `main`, and the identical block in
`mechanical_cycles.py`, `otto_cycle_app`)

The source computes, from compression ratio `r`, heat added `Qin`,
initial temperature `T1` and initial pressure `P1`, with constants
`k = 1.4`, `cv = 0.718`, `R = 0.2871`, the full chain of states.  The
constant `cp = 1.005` is defined in the source but unused by the
computation. -/

structure OttoResult where
  V1 : ℝ
  V2 : ℝ
  P2 : ℝ
  T2 : ℝ
  V3 : ℝ
  T3 : ℝ
  P3 : ℝ
  V4 : ℝ
  T4 : ℝ
  P4 : ℝ
  heat_rejected : ℝ
  work_output : ℝ
  efficiency : ℝ

noncomputable def ottoSolve (r heat_added T1 P1 : ℝ) : OttoResult :=
  let k : ℝ := 1.4
  let cv : ℝ := 0.718
  let R : ℝ := 0.2871
  let V1 := R * T1 / P1
  let V2 := V1 / r
  let P2 := P1 / ((1 / r) ^ k)
  let T2 := T1 * r ^ (k - 1)
  let V3 := V2
  let T3 := T2 + heat_added / cv
  let P3 := R * T3 / V3
  let V4 := V1
  let T4 := T3 / r ^ (k - 1)
  let P4 := R * T4 / V4
  let heat_rejected := cv * (T4 - T1)
  let work_output := heat_added - heat_rejected
  let efficiency := work_output / heat_added * 100
  ⟨V1, V2, P2, T2, V3, T3, P3, V4, T4, P4, heat_rejected, work_output, efficiency⟩

example : (ottoSolve 8 800 300 100).T2 = 300 * (8 : ℝ) ^ ((1.4 : ℝ) - 1) := by
  simp only [ottoSolve]

/-- C8: the spec's quoted Otto scenario values are not reproduced by the
code to 2 decimal places: at r = 8, T1 = 300 K, Qin = 800 kJ/kg the code
computes T3 ≈ 1803.43 K, which differs from the claimed 1803.6 K by more
than 0.1 K. -/
theorem c8_counterexample :
    (0.1 : ℝ) < |(ottoSolve 8 800 300 100).T3 - 1803.6| := by
  obtain ⟨h1, h2⟩ := rpow_8_two_fifths_bounds
  have hexp : (1.4 : ℝ) - 1 = 2 / 5 := by norm_num
  simp only [ottoSolve]
  simp only [hexp]
  rw [lt_abs]
  right
  nlinarith

/-- C8 (amended): for the Otto branch-1 computation with r = 8,
T1 = 300 K, Qin = 800 kJ/kg (and any nonzero P1, which the outputs do
not depend on), the computed outputs match, to 2 decimal places,
T2 = 689.22 K, T3 = 1803.43 K, T4 = 784.99 K, net work 451.78 kJ/kg and
thermal efficiency 56.47 %. -/
theorem c8_amended (p1 : ℝ) (hp1 : p1 ≠ 0) :
    |(ottoSolve 8 800 300 p1).T2 - 689.22| < 0.005 ∧
    |(ottoSolve 8 800 300 p1).T3 - 1803.43| < 0.005 ∧
    |(ottoSolve 8 800 300 p1).T4 - 784.99| < 0.005 ∧
    |(ottoSolve 8 800 300 p1).work_output - 451.78| < 0.005 ∧
    |(ottoSolve 8 800 300 p1).efficiency - 56.47| < 0.005 := by
  obtain ⟨h1, h2⟩ := rpow_8_two_fifths_bounds
  have hexp : (1.4 : ℝ) - 1 = 2 / 5 := by norm_num
  have hx0 : (0 : ℝ) < (8 : ℝ) ^ ((2 : ℝ) / 5) := Real.rpow_pos_of_pos (by norm_num) _
  have hd1 : (300 * (8 : ℝ) ^ ((2 : ℝ) / 5) + 800 / 0.718) / (8 : ℝ) ^ ((2 : ℝ) / 5)
      < 784.9865 := by
    rw [div_lt_iff hx0]
    nlinarith
  have hd2 : (784.9863 : ℝ)
      < (300 * (8 : ℝ) ^ ((2 : ℝ) / 5) + 800 / 0.718) / (8 : ℝ) ^ ((2 : ℝ) / 5) := by
    rw [lt_div_iff hx0]
    nlinarith
  refine ⟨?_, ?_, ?_, ?_, ?_⟩ <;>
    · simp only [ottoSolve]
      simp only [hexp]
      rw [abs_lt]
      constructor <;> nlinarith

/-- Witness for `c8_amended` at the concrete pressure P1 = 100 kPa. -/
theorem c8_witness :
    (100 : ℝ) ≠ 0 ∧ |(ottoSolve 8 800 300 100).T2 - 689.22| < 0.005 :=
  ⟨by norm_num, (c8_amended 100 (by norm_num)).1⟩

/-! ## Diesel cycle, standalone variant (`diesel.py`, `solve_diesel_cycle`)

The source takes optional inputs `r, V1_input, P1, T1, Qin, P3, T3`
(presence tested with `is not None`), fills a result dictionary, and
returns the dictionary if it is nonempty, `None` if it stayed empty, or
an error dictionary if an exception was raised.  Each dictionary key
becomes an `Option ℝ` field below ("Efficiency [%]" is stored already
multiplied by 100, as in the source).  The only exception reachable on
the inputs used by the claims is the `NameError` in scenario 3: with a
known mass the source reads the undefined local `q_in_specific`; it is
modelled explicitly.  The unreachable `elif` arms of scenario 1 (the
`v3` fallback when `P2_calc` is `None` but `P3` is given, and the `P3`
fallback in `P4`) are elided: `P2_calc` is `None` exactly when both `P1`
and `P3` are absent. -/

structure DieselResult where
  v1 : Option ℝ := none
  calcMass : Option ℝ := none
  totalVolumeV1 : Option ℝ := none
  noteV1 : Option ℝ := none
  T2 : Option ℝ := none
  P2 : Option ℝ := none
  P3 : Option ℝ := none
  v2 : Option ℝ := none
  v3 : Option ℝ := none
  rc : Option ℝ := none
  T4 : Option ℝ := none
  P4 : Option ℝ := none
  q_in : Option ℝ := none
  q_out : Option ℝ := none
  w_net : Option ℝ := none
  eff : Option ℝ := none
  estimatedR : Option ℝ := none
  T3_out : Option ℝ := none
  totalV2 : Option ℝ := none
  totalV3 : Option ℝ := none
  totalWnet : Option ℝ := none
  totalQin : Option ℝ := none
  totalQout : Option ℝ := none

def DieselResult.isEmpty (d : DieselResult) : Bool :=
  d.v1.isNone && d.calcMass.isNone && d.totalVolumeV1.isNone && d.noteV1.isNone &&
  d.T2.isNone && d.P2.isNone && d.P3.isNone && d.v2.isNone && d.v3.isNone &&
  d.rc.isNone && d.T4.isNone && d.P4.isNone && d.q_in.isNone && d.q_out.isNone &&
  d.w_net.isNone && d.eff.isNone && d.estimatedR.isNone && d.T3_out.isNone &&
  d.totalV2.isNone && d.totalV3.isNone && d.totalWnet.isNone && d.totalQin.isNone &&
  d.totalQout.isNone

inductive DieselOutput where
  | noResult : DieselOutput
  | err : String → DieselOutput
  | ok : DieselResult → DieselOutput

/-- Models `return results if results else None`. -/
def dieselFinish (d : DieselResult) : DieselOutput :=
  if d.isEmpty then .noResult else .ok d

def DieselOutput.getT2 : DieselOutput → Option ℝ
  | .ok d => d.T2
  | _ => none

def DieselOutput.getT4 : DieselOutput → Option ℝ
  | .ok d => d.T4
  | _ => none

def DieselOutput.getEff : DieselOutput → Option ℝ
  | .ok d => d.eff
  | _ => none

def DieselOutput.isError : DieselOutput → Bool
  | .err _ => true
  | _ => false

noncomputable def solve_diesel_cycle
    (r V1_input P1 T1 Qin P3 T3 : Option ℝ) : DieselOutput :=
  let k : ℝ := 1.4
  let R : ℝ := 0.2871
  let cv : ℝ := 0.718
  let cp : ℝ := 1.005
  let V1_total_m3 : Option ℝ := match V1_input with
    | some v => some (v / 1000)
    | none => none
  -- initial state 1 properties and mass
  let v1spec : Option ℝ := match P1, T1 with
    | some p1, some t1 => some (R * t1 / p1)
    | _, _ => match V1_total_m3 with
      | some vt => some vt
      | none => none
  let m : Option ℝ := match P1, T1, V1_total_m3 with
    | some p1, some t1, some vt => some (vt / (R * t1 / p1))
    | _, _, _ => none
  let base : DieselResult := match P1, T1 with
    | some p1, some t1 =>
      (match V1_total_m3 with
       | some vt => { v1 := some (R * t1 / p1 * 1000),
                      calcMass := some (vt / (R * t1 / p1)),
                      totalVolumeV1 := V1_input }
       | none => { v1 := some (R * t1 / p1 * 1000) })
    | _, _ =>
      match V1_total_m3 with
      | some _ => { noteV1 := V1_input, v1 := V1_input }
      | none => {}
  match r, T1, T3 with
  | some rv, some t1, some t3 =>
    -- Scenario 1: r, T1, T3 known
    let T2v := t1 * rv ^ (k - 1)
    let res1 : DieselResult := { base with T2 := some T2v }
    let P2_calc : Option ℝ := match P1 with
      | some p1 => some (p1 * rv ^ k)
      | none => match P3 with
        | some p3 => some p3
        | none => none
    let res2 : DieselResult := match P1 with
      | some p1 => { res1 with P2 := some (p1 * rv ^ k), P3 := some (p1 * rv ^ k) }
      | none => match P3 with
        | some p3 => { res1 with P2 := some p3 }
        | none => res1
    match v1spec with
    | none => dieselFinish res2
    | some v1s =>
      let v2s := v1s / rv
      let res3 : DieselResult := { res2 with v2 := some (v2s * 1000) }
      match P2_calc with
      | none => dieselFinish res3
      | some pc =>
        let v3s := R * t3 / pc
        let res4 : DieselResult := { res3 with v3 := some (v3s * 1000) }
        if v2s ≠ 0 then
          let rcv := v3s / v2s
          let T4v := t3 * (v3s / v1s) ^ (k - 1)
          let P4v := pc * (v3s / v1s) ^ k
          let qinv := cp * (t3 - T2v)
          let qoutv := cv * (T4v - t1)
          let wnetv := qinv - qoutv
          let effv := if qinv ≠ 0 then wnetv / qinv else 0
          let res5 : DieselResult :=
            { res4 with rc := some rcv, T4 := some T4v,
                        P4 := some P4v, q_in := some qinv, q_out := some qoutv,
                        w_net := some wnetv, eff := some (effv * 100) }
          match m with
          | some mv => dieselFinish
              { res5 with totalV2 := some (v2s * mv * 1000),
                          totalV3 := some (v3s * mv * 1000),
                          totalWnet := some (wnetv * mv), totalQin := some (qinv * mv),
                          totalQout := some (qoutv * mv) }
          | none => dieselFinish res5
        else dieselFinish res4
  | _, _, _ =>
    match P3, T3, P1, T1 with
    | some p3, some t3, some p1, some t1 =>
      -- Scenario 2: P3, T3, P1, T1 known
      let rv := (p3 / p1) ^ ((1 : ℝ) / k)
      let T2v := t1 * rv ^ (k - 1)
      let v1s := R * t1 / p1
      let v2s := v1s / rv
      let v3s := R * t3 / p3
      let rcv := v3s / v2s
      let T4v := t3 * (v3s / v1s) ^ (k - 1)
      let P4v := p3 * (v3s / v1s) ^ k
      let qinv := cp * (t3 - T2v)
      let qoutv := cv * (T4v - t1)
      let wnetv := qinv - qoutv
      let effv := if qinv ≠ 0 then wnetv / qinv else 0
      let res5 : DieselResult :=
        { base with estimatedR := some rv, T2 := some T2v,
                    P2 := some p3, v1 := some (v1s * 1000), v2 := some (v2s * 1000),
                    v3 := some (v3s * 1000), rc := some rcv, T4 := some T4v,
                    P4 := some P4v, q_in := some qinv, q_out := some qoutv,
                    w_net := some wnetv, eff := some (effv * 100) }
      match m with
      | some mv => dieselFinish
          { res5 with totalVolumeV1 := some (v1s * mv * 1000),
                      totalV2 := some (v2s * mv * 1000),
                      totalV3 := some (v3s * mv * 1000), totalWnet := some (wnetv * mv),
                      totalQin := some (qinv * mv), totalQout := some (qoutv * mv) }
      | none => dieselFinish res5
    | _, _, _, _ =>
      match Qin, r, P1, T1 with
      | some qinv, some rv, some p1, some t1 =>
        -- Scenario 3: Qin, r, P1, T1 known
        match m with
        | some _ =>
          -- the source reads the undefined local q_in_specific here
          .err "NameError: q_in_specific is not defined"
        | none =>
          let v1s := R * t1 / p1
          let v2s := v1s / rv
          let T2v := t1 * rv ^ (k - 1)
          let P2v := p1 * rv ^ k
          let T3v := T2v + qinv / cp
          let v3s := R * T3v / P2v
          let rcv := v3s / v2s
          let T4v := T3v * (v3s / v1s) ^ (k - 1)
          let P4v := P2v * (v3s / v1s) ^ k
          let qoutv := cv * (T4v - t1)
          let wnetv := qinv - qoutv
          let effv := if qinv ≠ 0 then wnetv / qinv else 0
          dieselFinish
            { base with T2 := some T2v, P2 := some P2v, T3_out := some T3v,
                        P3 := some P2v, v1 := some (v1s * 1000), v2 := some (v2s * 1000),
                        v3 := some (v3s * 1000), rc := some rcv, T4 := some T4v,
                        P4 := some P4v, q_out := some qoutv, w_net := some wnetv,
                        eff := some (effv * 100) }
      | _, _, _, _ => dieselFinish base

/-! ## Dual cycle (`dual.py`, `solve_dual_cycle`)

The source tests presence of inputs by Python truthiness (`if r and rc
and rp and T1`), so a supplied `0.0` fails the test exactly like an
absent value.  Inside the branch it divides by `v1` and multiplies `P1`,
both of which may be `None`; those `TypeError` exceptions are caught by
the source and returned as an error string, modelled here by `.err`.
When the branch is not taken the result dictionary stays empty and the
source returns the explicit insufficient-inputs error. -/

structure DualResult where
  T2 : ℝ
  T3 : ℝ
  T4 : ℝ
  T5 : ℝ
  P2 : ℝ
  P3 : ℝ
  P4 : ℝ
  P5 : ℝ
  q_in : ℝ
  q_out : ℝ
  w_net : ℝ
  eff : ℝ

inductive DualOutput where
  | ok : DualResult → DualOutput
  | err : String → DualOutput

noncomputable def solve_dual_cycle (r rp rc V1_L P1 T1 Qin : Option ℝ) : DualOutput :=
  let k : ℝ := 1.4
  let R : ℝ := 0.2871
  let cv : ℝ := 0.718
  let cp : ℝ := 1.005
  let V1_m3 : Option ℝ := match V1_L with
    | some v => if v ≠ 0 then some (v / 1000) else none
    | none => none
  let v1 : Option ℝ := match T1, P1 with
    | some t1, some p1 => if t1 ≠ 0 ∧ p1 ≠ 0 then some ((R * t1) / p1) else V1_m3
    | _, _ => V1_m3
  match r, rc, rp, T1 with
  | some rv, some rcv, some rpv, some t1 =>
    if rv ≠ 0 ∧ rcv ≠ 0 ∧ rpv ≠ 0 ∧ t1 ≠ 0 then
      match v1 with
      | none => .err "TypeError: unsupported operand"
      | some v1v =>
        let v2 := v1v / rv
        let T2 := t1 * rv ^ (k - 1)
        match P1 with
        | none => .err "TypeError: unsupported operand"
        | some p1 =>
          let P2 := p1 * rv ^ k
          let T3 := T2 * rpv
          let P3 := P2 * rpv
          let v3 := v2
          let v4 := rcv * v3
          let T4 := T3 * rcv
          let P4 := P3
          let T5 := T4 * (v4 / v1v) ^ (1 - k)
          let P5 := P4 * (v4 / v1v) ^ (-k)
          let q_in := cv * (T3 - T2) + cp * (T4 - T3)
          let q_out := cv * (T5 - t1)
          let w_net := q_in - q_out
          let eff := if q_in ≠ 0 then w_net / q_in else 0
          .ok ⟨T2, T3, T4, T5, P2, P3, P4, P5, q_in, q_out, w_net, eff * 100⟩
    else .err "Insufficient or inconsistent inputs."
  | _, _, _, _ => .err "Insufficient or inconsistent inputs."

/-- C1: the claim fails on the standalone Diesel solver: with only the
compression ratio supplied (the spec's own concrete scenario) the
function returns `None`, not an explicit insufficient-inputs error
value. -/
theorem c1_counterexample :
    solve_diesel_cycle (some 8) none none none none none none = DieselOutput.noResult := by
  delta solve_diesel_cycle
  norm_num [dieselFinish, DieselResult.isEmpty]

/-- C1 (amended): when no branch's prerequisites hold, the Dual solver
(and the combined-app solvers, which share its shape) return the
explicit error value "Insufficient or inconsistent inputs.", but the
standalone Diesel solver returns `None` whenever nothing at all was
computed (for example whenever only the compression ratio is given). -/
theorem c1_amended :
    (∀ rc rp V1 P1 T1 Qin : Option ℝ,
        solve_dual_cycle none rp rc V1 P1 T1 Qin
          = DualOutput.err "Insufficient or inconsistent inputs.") ∧
    (∀ x : ℝ,
        solve_diesel_cycle (some x) none none none none none none
          = DieselOutput.noResult) := by
  constructor
  · intro rc rp V1 P1 T1 Qin
    delta solve_dual_cycle
    simp
  · intro x
    delta solve_diesel_cycle
    norm_num [dieselFinish, DieselResult.isEmpty]

/-- C2: the claim fails on the standalone Diesel solver: with heat input
Qin = 0 in the heat-input branch (Qin, r, P1, T1 all provided), the
solver returns a numeric result whose efficiency is silently reported as
zero, not a degenerate-configuration error. -/
theorem c2_counterexample :
    (solve_diesel_cycle (some 32) none (some 100) (some 300) (some 0) none none).getEff
      = some 0 ∧
    (solve_diesel_cycle (some 32) none (some 100) (some 300) (some 0) none none).isError
      = false := by
  constructor <;>
  · delta solve_diesel_cycle
    norm_num [dieselFinish, DieselResult.isEmpty, DieselOutput.getEff, DieselOutput.isError]

/-- C2 (amended): in the standalone Diesel heat-input branch, a provided
heat input of 0 passes the `is not None` prerequisite check and, because
the efficiency division is explicitly guarded, yields a numeric result
with efficiency reported as 0; no error of any kind is returned.  (The
positivity hypotheses keep every denominator the Python code divides by
nonzero.) -/
theorem c2_amended (rv p1 t1 : ℝ) (hr : 0 < rv) (hp1 : 0 < p1) (ht1 : 0 < t1) :
    (solve_diesel_cycle (some rv) none (some p1) (some t1) (some 0) none none).getEff
      = some 0 ∧
    (solve_diesel_cycle (some rv) none (some p1) (some t1) (some 0) none none).isError
      = false := by
  constructor <;>
  · delta solve_diesel_cycle
    norm_num [dieselFinish, DieselResult.isEmpty, DieselOutput.getEff, DieselOutput.isError]

/-- Witness for `c2_amended` at r = 32, P1 = 100 kPa, T1 = 300 K. -/
theorem c2_witness :
    ((0 : ℝ) < 32 ∧ (0 : ℝ) < 100 ∧ (0 : ℝ) < 300) ∧
    (solve_diesel_cycle (some 32) none (some 100) (some 300) (some 0) none none).getEff
      = some 0 :=
  ⟨⟨by norm_num, by norm_num, by norm_num⟩,
    (c2_amended 32 100 300 (by norm_num) (by norm_num) (by norm_num)).1⟩

/-- C7: for positive P1, P3, T1, T3, the Diesel pressure-ratio-inference
branch (scenario 2), which back-solves r = (P3/P1)^(1/k) and replays the
branch-1 equations, returns exactly the same T2, T4 and efficiency as
running branch 1 directly with that inferred ratio and the same P1, T1,
T3 — the identity is exact over real arithmetic. -/
theorem c7_roundtrip (p1 p3 t1 t3 : ℝ)
    (hp1 : 0 < p1) (hp3 : 0 < p3) (ht1 : 0 < t1) (ht3 : 0 < t3) :
    (solve_diesel_cycle none none (some p1) (some t1) none (some p3) (some t3)).getT2
      = (solve_diesel_cycle (some ((p3 / p1) ^ ((1 : ℝ) / 1.4))) none (some p1) (some t1)
          none none (some t3)).getT2 ∧
    (solve_diesel_cycle none none (some p1) (some t1) none (some p3) (some t3)).getT4
      = (solve_diesel_cycle (some ((p3 / p1) ^ ((1 : ℝ) / 1.4))) none (some p1) (some t1)
          none none (some t3)).getT4 ∧
    (solve_diesel_cycle none none (some p1) (some t1) none (some p3) (some t3)).getEff
      = (solve_diesel_cycle (some ((p3 / p1) ^ ((1 : ℝ) / 1.4))) none (some p1) (some t1)
          none none (some t3)).getEff := by
  have hrpos : (0 : ℝ) < (p3 / p1) ^ ((5 : ℝ) / 7) :=
    Real.rpow_pos_of_pos (div_pos hp3 hp1) _
  have hpc : p1 * ((p3 / p1) ^ ((5 : ℝ) / 7)) ^ ((7 : ℝ) / 5) = p3 := by
    rw [← Real.rpow_mul (div_pos hp3 hp1).le]
    rw [show (5 : ℝ) / 7 * (7 / 5) = 1 by norm_num, Real.rpow_one]
    field_simp
  have hcond : (¬ t1 = 0 ∧ ¬ p1 = 0) ∧ ¬ (p3 / p1) ^ ((5 : ℝ) / 7) = 0 :=
    ⟨⟨ht1.ne', hp1.ne'⟩, hrpos.ne'⟩
  refine ⟨?_, ?_, ?_⟩ <;>
  · delta solve_diesel_cycle
    norm_num [dieselFinish, DieselResult.isEmpty, DieselOutput.getT2,
      DieselOutput.getT4, DieselOutput.getEff]
    rw [if_pos hcond]
    try rw [hpc]
    try rfl

/-- Witness for `c7_roundtrip` at P1 = 100 kPa, P3 = 12800 kPa,
T1 = 300 K, T3 = 1200 K. -/
theorem c7_witness :
    ((0 : ℝ) < 100 ∧ (0 : ℝ) < 12800 ∧ (0 : ℝ) < 300 ∧ (0 : ℝ) < 1200) ∧
    (solve_diesel_cycle none none (some 100) (some 300) none (some 12800)
        (some 1200)).getT2
      = (solve_diesel_cycle (some (((12800 : ℝ) / 100) ^ ((1 : ℝ) / 1.4))) none (some 100)
          (some 300) none none (some 1200)).getT2 :=
  ⟨⟨by norm_num, by norm_num, by norm_num, by norm_num⟩,
    (c7_roundtrip 100 12800 300 1200 (by norm_num) (by norm_num) (by norm_num)
      (by norm_num)).1⟩

/-- C10: the claim fails on the Dual solver: supplying T1 = 0.0 together
with r, rp, rc does not satisfy the branch prerequisite check — the
truthiness test treats the provided zero exactly like an absent field,
and the solver returns the insufficient-inputs error (identically to
the call with T1 omitted). -/
theorem c10_counterexample :
    solve_dual_cycle (some 2) (some 2) (some 2) none (some 100) (some 0) none
      = DualOutput.err "Insufficient or inconsistent inputs." ∧
    solve_dual_cycle (some 2) (some 2) (some 2) none (some 100) (some 0) none
      = solve_dual_cycle (some 2) (some 2) (some 2) none (some 100) none none := by
  constructor <;>
  · delta solve_dual_cycle
    norm_num

/-- C10 (amended): presence checks differ between solvers.  The
standalone Diesel solver tests `is not None`, so a provided T1 = 0.0
satisfies the branch-1 prerequisites and is used in the equations
(T2 = T1·r^(k−1) = 0 is computed and reported).  The Dual solver tests
truthiness, so a provided 0.0 is indistinguishable from an absent
field. -/
theorem c10_amended :
    (∀ rv p1 t3 : ℝ, 0 < rv → p1 ≠ 0 →
        (solve_diesel_cycle (some rv) none (some p1) (some 0) none none (some t3)).getT2
          = some 0) ∧
    (∀ r rp rc V1 P1 Qin : Option ℝ,
        solve_dual_cycle r rp rc V1 P1 (some 0) Qin
          = solve_dual_cycle r rp rc V1 P1 none Qin) := by
  constructor
  · intro rv p1 t3 hrv hp1
    delta solve_diesel_cycle
    norm_num [dieselFinish, DieselResult.isEmpty, DieselOutput.getT2]
  · intro r rp rc V1 P1 Qin
    rcases r with _ | rv <;> rcases rc with _ | rcv <;> rcases rp with _ | rpv <;>
    · delta solve_dual_cycle
      norm_num

/-- Witness for `c10_amended`, instantiating both parts. -/
theorem c10_witness :
    ((0 : ℝ) < 32 ∧ (100 : ℝ) ≠ 0) ∧
    (solve_diesel_cycle (some 32) none (some 100) (some 0) none none (some 1200)).getT2
      = some 0 ∧
    solve_dual_cycle (some 2) (some 2) (some 2) none (some 100) (some 0) none
      = solve_dual_cycle (some 2) (some 2) (some 2) none (some 100) none none :=
  ⟨⟨by norm_num, by norm_num⟩,
    c10_amended.1 32 100 1200 (by norm_num) (by norm_num),
    c10_amended.2 (some 2) (some 2) (some 2) none (some 100) none⟩

/-! ## Brayton cycle, standalone variant (`bryton.py`,
`calculate_brayton_cycle`)

The source threads mutable locals (`T2s`, `T4a`, `eta_t_dec`,
`results['error']`, ...) through a fixed sequence of blocks; each local
becomes a `let` below (suffix `0` marks a value before a later
conditional reassignment), and each result-dictionary key becomes an
`Option ℝ` field.  `cycle_type` takes exactly the two UI values
`"Ideal"`/`"Actual"`, modelled as an inductive type.  The reverse
`elif` arms of Step 2 are elided: they test `T2a`/`T4a`, which are
still `None` at that point.  The `try/except` around Step 1 is elided:
over the real-valued embedding the guarded expressions are total.
Error strings overwrite earlier ones exactly as the source's
`results['error'] = ...` assignments do. -/

inductive CycleType where
  | Ideal : CycleType
  | Actual : CycleType
deriving DecidableEq

structure BraytonResult where
  error : Option String := none
  T2s : Option ℝ := none
  T4s : Option ℝ := none
  T2a : Option ℝ := none
  T4a : Option ℝ := none
  calculated_eta_c : Option ℝ := none
  calculated_eta_t : Option ℝ := none
  w_c_s : Option ℝ := none
  w_t_s : Option ℝ := none
  w_c_a : Option ℝ := none
  w_t_a : Option ℝ := none
  w_net : Option ℝ := none
  q_in : Option ℝ := none
  q_out : Option ℝ := none
  thermal_efficiency : Option ℝ := none
  mass_flow_kgs : Option ℝ := none
  net_power_kW : Option ℝ := none
  derived_w_net : Option ℝ := none
  mass_flow_kgph_out : Option ℝ := none
  net_power_MW_out : Option ℝ := none
  derived_T2a : Option ℝ := none
  T1_out : Option ℝ := none
  T3_out : Option ℝ := none
  r_p_out : Option ℝ := none
  input_eta_c : Option ℝ := none
  input_eta_t : Option ℝ := none
  cycle_type_out : CycleType := CycleType.Ideal

noncomputable def calculate_brayton_cycle
    (cycle_type : CycleType)
    (r_p T1 T3 T4_actual eta_c_input eta_t_input net_power_MW mass_flow_kgph : Option ℝ)
    (cp k : ℝ) : BraytonResult :=
  -- the source derives the decimal efficiencies from the inputs and then
  -- overrides both with 1.0 for an Ideal cycle; the net effect is encoded
  let eta_c_dec : ℝ := match cycle_type, eta_c_input with
    | CycleType.Ideal, _ => 1
    | CycleType.Actual, some e => e / 100
    | CycleType.Actual, none => 1
  let eta_t_dec0 : ℝ := match cycle_type, eta_t_input with
    | CycleType.Ideal, _ => 1
    | CycleType.Actual, some e => e / 100
    | CycleType.Actual, none => 1
  -- Step 1: isentropic temperatures
  let T2s : Option ℝ := match T1, r_p with
    | some t1, some rp => some (t1 * rp ^ ((k - 1) / k))
    | _, _ => none
  let T4s : Option ℝ := match T3, r_p with
    | some t3, some rp => some (t3 * (1 / rp) ^ ((k - 1) / k))
    | _, _ => none
  -- Step 2, Case 1 (Ideal, or both efficiencies given) / Case 2 (T4 given)
  let case1 : Bool := match cycle_type, eta_c_input, eta_t_input with
    | CycleType.Ideal, _, _ => true
    | CycleType.Actual, some _, some _ => true
    | _, _, _ => false
  let T2a0 : Option ℝ :=
    if case1 then
      match T2s, T1 with
      | some s2, some t1 => if eta_c_dec > 0 then some (t1 + (s2 - t1) / eta_c_dec) else none
      | _, _ => none
    else none
  let T4a0 : Option ℝ :=
    if case1 then
      match T4s, T3 with
      | some s4, some t3 => if eta_t_dec0 > 0 then some (t3 - (t3 - s4) * eta_t_dec0) else none
      | _, _ => none
    else
      match T4_actual with
      | some t4 => some t4
      | none => none
  let calculated_eta_t0 : Option ℝ :=
    if case1 then none
    else match T4_actual, T3, T4s with
      | some t4, some t3, some s4 =>
        if t3 - s4 ≠ 0 then some ((t3 - t4) / (t3 - s4) * 100) else none
      | _, _, _ => none
  let error1 : Option String :=
    if case1 then none
    else match T4_actual, T3, T4s with
      | some _, some t3, some s4 =>
        if t3 - s4 ≠ 0 then none
        else some "Cannot calculate turbine efficiency: (T3 - T4s) is zero."
      | _, _, _ => none
  let eta_t_dec : ℝ := match calculated_eta_t0 with
    | some ce => ce / 100
    | none => eta_t_dec0
  -- Step 3: work terms, actual temperatures, heat terms, efficiency
  let w_c_s : Option ℝ := match T1, T2s with
    | some t1, some s2 => some (cp * (s2 - t1))
    | _, _ => none
  let w_t_s : Option ℝ := match T3, T4s with
    | some t3, some s4 => some (cp * (t3 - s4))
    | _, _ => none
  let w_c_a : Option ℝ := match T1, T2a0 with
    | some t1, some a2 => some (cp * (a2 - t1))
    | _, _ => match w_c_s with
      | some wcs => if eta_c_dec > 0 then some (wcs / eta_c_dec) else none
      | none => none
  let T2a : Option ℝ := match T1, T2a0 with
    | some _, some a2 => some a2
    | _, _ => match w_c_s with
      | some wcs =>
        if eta_c_dec > 0 then
          match T1 with
          | some t1 => if cp ≠ 0 then some (t1 + wcs / eta_c_dec / cp) else T2a0
          | none => T2a0
        else T2a0
      | none => T2a0
  let w_t_a : Option ℝ := match T3, T4a0 with
    | some t3, some a4 => some (cp * (t3 - a4))
    | _, _ => match w_t_s with
      | some wts => if eta_t_dec > 0 then some (wts * eta_t_dec) else none
      | none => none
  let T4a : Option ℝ := match T3, T4a0 with
    | some _, some a4 => some a4
    | _, _ => match w_t_s with
      | some wts =>
        if eta_t_dec > 0 then
          match T3 with
          | some t3 => if cp ≠ 0 then some (t3 - wts * eta_t_dec / cp) else T4a0
          | none => T4a0
        else T4a0
      | none => T4a0
  let w_net0 : Option ℝ := match w_t_a, w_c_a with
    | some wta, some wca => some (wta - wca)
    | _, _ => none
  let q_in : Option ℝ := match T3, T2a with
    | some t3, some a2 => some (cp * (t3 - a2))
    | _, _ => none
  let q_out : Option ℝ := match T4a, T1 with
    | some a4, some t1 => some (cp * (a4 - t1))
    | _, _ => none
  let thermal_efficiency : Option ℝ := match w_net0, q_in, q_out with
    | some wn, some qi, _ => if qi ≠ 0 then some (wn / qi * 100) else none
    | none, some qi, some qo => if qi ≠ 0 then some ((1 - qo / qi) * 100) else none
    | _, _, _ => none
  -- Step 4, first block: both net power and mass flow given
  let mass_flow_kgs0 : Option ℝ := match net_power_MW, mass_flow_kgph with
    | some _, some mf => some (mf / 3600)
    | _, _ => none
  let net_power_kW0 : Option ℝ := match net_power_MW, mass_flow_kgph with
    | some p, some _ => some (p * 1000)
    | _, _ => none
  let derived_w_net : Option ℝ := match net_power_MW, mass_flow_kgph with
    | some p, some mf => if mf / 3600 ≠ 0 then some (p * 1000 / (mf / 3600)) else none
    | _, _ => none
  let w_net : Option ℝ := match w_net0, derived_w_net with
    | none, some dwn => some dwn
    | _, _ => w_net0
  -- second block: mass flow from power and specific work
  let mass_flow_kgs : Option ℝ := match w_net, net_power_MW, mass_flow_kgph with
    | some wn, some p, none => if wn ≠ 0 then some (p * 1000 / wn) else mass_flow_kgs0
    | _, _, _ => mass_flow_kgs0
  let mass_flow_kgph_out : Option ℝ := match w_net, net_power_MW, mass_flow_kgph with
    | some wn, some p, none => if wn ≠ 0 then some (p * 1000 / wn * 3600) else none
    | _, _, _ => none
  let error2 : Option String := match w_net, net_power_MW, mass_flow_kgph with
    | some wn, some _, none =>
      if wn ≠ 0 then error1 else some "Cannot calculate mass flow rate: Net work is zero."
    | _, _, _ => error1
  -- third block: power from mass flow and specific work
  let net_power_kW : Option ℝ := match w_net, mass_flow_kgph, net_power_MW with
    | some wn, some mf, none => some (wn * (mf / 3600))
    | _, _, _ => net_power_kW0
  let net_power_MW_out : Option ℝ := match w_net, mass_flow_kgph, net_power_MW with
    | some wn, some mf, none => some (wn * (mf / 3600) / 1000)
    | _, _, _ => none
  -- final Actual-cycle block (source lines 208-243)
  let calculated_eta_c0 : Option ℝ := match cycle_type, T1, T3, r_p with
    | CycleType.Actual, some t1, some _, some _ =>
      (match eta_c_input, T2a, T2s with
       | none, some a2, some s2 =>
         if a2 - t1 ≠ 0 then some ((s2 - t1) / (a2 - t1) * 100) else none
       | _, _, _ => none)
    | _, _, _, _ => none
  let error3 : Option String := match cycle_type, T1, T3, r_p with
    | CycleType.Actual, some t1, some _, some _ =>
      (match eta_c_input, T2a, T2s with
       | none, some a2, some _ =>
         if a2 - t1 ≠ 0 then error2
         else some "Cannot calculate compressor efficiency: (T2a - T1) is zero."
       | _, _, _ => error2)
    | _, _, _, _ => error2
  let calculated_eta_t : Option ℝ := match cycle_type, T1, T3, r_p with
    | CycleType.Actual, some _, some t3, some _ =>
      (match eta_t_input, T4a, T4s with
       | none, some a4, some s4 =>
         if t3 - s4 ≠ 0 then some ((t3 - a4) / (t3 - s4) * 100) else calculated_eta_t0
       | _, _, _ => calculated_eta_t0)
    | _, _, _, _ => calculated_eta_t0
  let error4 : Option String := match cycle_type, T1, T3, r_p with
    | CycleType.Actual, some _, some t3, some _ =>
      (match eta_t_input, T4a, T4s with
       | none, some _, some s4 =>
         if t3 - s4 ≠ 0 then error3
         else some "Cannot calculate turbine efficiency: (T3 - T4s) is zero."
       | _, _, _ => error3)
    | _, _, _, _ => error3
  -- the "Problem 2" sub-block: back-solving the compressor efficiency from
  -- T4_actual together with net power and mass flow
  let derived_T2a : Option ℝ := match cycle_type, T1, T3, r_p with
    | CycleType.Actual, some t1, some t3, some _ =>
      (match T4_actual, net_power_MW, mass_flow_kgph, eta_c_input, eta_t_input with
       | some t4x, some _, some _, none, none =>
         (match net_power_kW, mass_flow_kgs with
          | some npk, some mks =>
            if mks ≠ 0 then
              if cp ≠ 0 then some (t1 + (cp * (t3 - t4x) - npk / mks) / cp) else none
            else none
          | _, _ => none)
       | _, _, _, _, _ => none)
    | _, _, _, _ => none
  let calculated_eta_c : Option ℝ := match cycle_type, T1, T3, r_p with
    | CycleType.Actual, some t1, some t3, some _ =>
      (match T4_actual, net_power_MW, mass_flow_kgph, eta_c_input, eta_t_input with
       | some t4x, some _, some _, none, none =>
         (match net_power_kW, mass_flow_kgs with
          | some npk, some mks =>
            if mks ≠ 0 then
              if cp ≠ 0 then
                (match T2s with
                 | some s2 =>
                   if t1 + (cp * (t3 - t4x) - npk / mks) / cp - t1 ≠ 0 then
                     some ((s2 - t1) / (t1 + (cp * (t3 - t4x) - npk / mks) / cp - t1) * 100)
                   else calculated_eta_c0
                 | none => calculated_eta_c0)
              else calculated_eta_c0
            else calculated_eta_c0
          | _, _ => calculated_eta_c0)
       | _, _, _, _, _ => calculated_eta_c0)
    | _, _, _, _ => calculated_eta_c0
  let error5 : Option String := match cycle_type, T1, T3, r_p with
    | CycleType.Actual, some t1, some t3, some _ =>
      (match T4_actual, net_power_MW, mass_flow_kgph, eta_c_input, eta_t_input with
       | some t4x, some _, some _, none, none =>
         (match net_power_kW, mass_flow_kgs with
          | some npk, some mks =>
            if mks ≠ 0 then
              if cp ≠ 0 then
                (match T2s with
                 | some _ =>
                   if t1 + (cp * (t3 - t4x) - npk / mks) / cp - t1 ≠ 0 then error4
                   else some "Cannot calculate compressor efficiency for this scenario."
                 | none => some "Cannot calculate compressor efficiency for this scenario.")
              else
                some "Insufficient data to derive T2a for compressor efficiency calculation."
            else error4
          | _, _ => error4)
       | _, _, _, _, _ => error4)
    | _, _, _, _ => error4
  { error := error5, T2s := T2s, T4s := T4s, T2a := T2a, T4a := T4a,
    calculated_eta_c := calculated_eta_c, calculated_eta_t := calculated_eta_t,
    w_c_s := w_c_s, w_t_s := w_t_s, w_c_a := w_c_a, w_t_a := w_t_a,
    w_net := w_net, q_in := q_in, q_out := q_out,
    thermal_efficiency := thermal_efficiency,
    mass_flow_kgs := mass_flow_kgs, net_power_kW := net_power_kW,
    derived_w_net := derived_w_net, mass_flow_kgph_out := mass_flow_kgph_out,
    net_power_MW_out := net_power_MW_out, derived_T2a := derived_T2a,
    T1_out := T1, T3_out := T3, r_p_out := r_p,
    input_eta_c := eta_c_input, input_eta_t := eta_t_input,
    cycle_type_out := cycle_type }

/-- C3: for every Brayton input with T1, T3 and pressure ratio provided
(and any values of the remaining optional inputs), solving the Actual
cycle with both device efficiencies equal to 100 % produces exactly the
same computed temperatures, specific works, specific heats and thermal
efficiency as solving the Ideal cycle with no efficiencies supplied. -/
theorem c3_unity_efficiency_matches_ideal (rp t1 t3 : ℝ) (t4a pw mf : Option ℝ)
    (cp k : ℝ) :
    (calculate_brayton_cycle CycleType.Actual (some rp) (some t1) (some t3) t4a
        (some 100) (some 100) pw mf cp k).T2s
      = (calculate_brayton_cycle CycleType.Ideal (some rp) (some t1) (some t3) t4a
          none none pw mf cp k).T2s ∧
    (calculate_brayton_cycle CycleType.Actual (some rp) (some t1) (some t3) t4a
        (some 100) (some 100) pw mf cp k).T4s
      = (calculate_brayton_cycle CycleType.Ideal (some rp) (some t1) (some t3) t4a
          none none pw mf cp k).T4s ∧
    (calculate_brayton_cycle CycleType.Actual (some rp) (some t1) (some t3) t4a
        (some 100) (some 100) pw mf cp k).T2a
      = (calculate_brayton_cycle CycleType.Ideal (some rp) (some t1) (some t3) t4a
          none none pw mf cp k).T2a ∧
    (calculate_brayton_cycle CycleType.Actual (some rp) (some t1) (some t3) t4a
        (some 100) (some 100) pw mf cp k).T4a
      = (calculate_brayton_cycle CycleType.Ideal (some rp) (some t1) (some t3) t4a
          none none pw mf cp k).T4a ∧
    (calculate_brayton_cycle CycleType.Actual (some rp) (some t1) (some t3) t4a
        (some 100) (some 100) pw mf cp k).w_c_s
      = (calculate_brayton_cycle CycleType.Ideal (some rp) (some t1) (some t3) t4a
          none none pw mf cp k).w_c_s ∧
    (calculate_brayton_cycle CycleType.Actual (some rp) (some t1) (some t3) t4a
        (some 100) (some 100) pw mf cp k).w_t_s
      = (calculate_brayton_cycle CycleType.Ideal (some rp) (some t1) (some t3) t4a
          none none pw mf cp k).w_t_s ∧
    (calculate_brayton_cycle CycleType.Actual (some rp) (some t1) (some t3) t4a
        (some 100) (some 100) pw mf cp k).w_c_a
      = (calculate_brayton_cycle CycleType.Ideal (some rp) (some t1) (some t3) t4a
          none none pw mf cp k).w_c_a ∧
    (calculate_brayton_cycle CycleType.Actual (some rp) (some t1) (some t3) t4a
        (some 100) (some 100) pw mf cp k).w_t_a
      = (calculate_brayton_cycle CycleType.Ideal (some rp) (some t1) (some t3) t4a
          none none pw mf cp k).w_t_a ∧
    (calculate_brayton_cycle CycleType.Actual (some rp) (some t1) (some t3) t4a
        (some 100) (some 100) pw mf cp k).w_net
      = (calculate_brayton_cycle CycleType.Ideal (some rp) (some t1) (some t3) t4a
          none none pw mf cp k).w_net ∧
    (calculate_brayton_cycle CycleType.Actual (some rp) (some t1) (some t3) t4a
        (some 100) (some 100) pw mf cp k).q_in
      = (calculate_brayton_cycle CycleType.Ideal (some rp) (some t1) (some t3) t4a
          none none pw mf cp k).q_in ∧
    (calculate_brayton_cycle CycleType.Actual (some rp) (some t1) (some t3) t4a
        (some 100) (some 100) pw mf cp k).q_out
      = (calculate_brayton_cycle CycleType.Ideal (some rp) (some t1) (some t3) t4a
          none none pw mf cp k).q_out ∧
    (calculate_brayton_cycle CycleType.Actual (some rp) (some t1) (some t3) t4a
        (some 100) (some 100) pw mf cp k).thermal_efficiency
      = (calculate_brayton_cycle CycleType.Ideal (some rp) (some t1) (some t3) t4a
          none none pw mf cp k).thermal_efficiency := by
  refine ⟨?_, ?_, ?_, ?_, ?_, ?_, ?_, ?_, ?_, ?_, ?_, ?_⟩ <;>
  · delta calculate_brayton_cycle
    norm_num

/-- C4: the claim fails on the Brayton solver: at cycle "Actual" with
r_p = 1, T1 = 300, T3 = 1200, T4 = 800 and no efficiencies, the solve
fails (an error is recorded) yet the returned value still carries
computed quantities such as T2s alongside the error marker. -/
theorem c4_counterexample :
    (calculate_brayton_cycle CycleType.Actual (some 1) (some 300) (some 1200) (some 800)
        none none none none 1.005 1.4).error ≠ none ∧
    (calculate_brayton_cycle CycleType.Actual (some 1) (some 300) (some 1200) (some 800)
        none none none none 1.005 1.4).T2s ≠ none := by
  constructor <;>
  · delta calculate_brayton_cycle
    norm_num
    exact Option.some_ne_none _

/-- C4 (amended): a failed Brayton solve can return the error marker
together with the partially computed quantities: at the input above the
result carries the turbine-efficiency error and, at the same time,
T2s = 300 K, T4s = 1200 K and w_net = 402 kJ/kg. -/
theorem c4_amended :
    (calculate_brayton_cycle CycleType.Actual (some 1) (some 300) (some 1200) (some 800)
        none none none none 1.005 1.4).error
      = some "Cannot calculate turbine efficiency: (T3 - T4s) is zero." ∧
    (calculate_brayton_cycle CycleType.Actual (some 1) (some 300) (some 1200) (some 800)
        none none none none 1.005 1.4).T2s = some 300 ∧
    (calculate_brayton_cycle CycleType.Actual (some 1) (some 300) (some 1200) (some 800)
        none none none none 1.005 1.4).T4s = some 1200 ∧
    (calculate_brayton_cycle CycleType.Actual (some 1) (some 300) (some 1200) (some 800)
        none none none none 1.005 1.4).w_net = some 402 := by
  refine ⟨?_, ?_, ?_, ?_⟩ <;>
  · delta calculate_brayton_cycle
    norm_num

/-- C6: the claim's formula fails for the turbine: at cycle "Actual"
with r_p = 128, T1 = 300, T3 = 1200, actual exhaust T4 = 500 and no
efficiencies, the code reports a turbine efficiency of 700/9 ≈ 77.8 %
(the ACTUAL drop divided by the isentropic drop), which differs from
the claimed "isentropic effect / actual effect" value
(T3 − T4s)/(T3 − T4a)·100 = (1200 − 300)/(1200 − 500)·100 ≈ 128.6 %. -/
theorem c6_counterexample :
    (calculate_brayton_cycle CycleType.Actual (some 128) (some 300) (some 1200) (some 500)
        none none none none 1.005 1.4).calculated_eta_t = some (700 / 9) ∧
    ((700 : ℝ) / 9 ≠ (1200 - 300) / (1200 - 500) * 100) := by
  constructor
  · delta calculate_brayton_cycle
    norm_num [rpow_128_two_sevenths, rpow_inv128_two_sevenths]
  · norm_num

/-- C6 (amended): in the Actual Brayton cycle with T1, T3, r_p and the
actual exhaust temperature given and both efficiencies unknown, the
solver back-computes both device efficiencies, with the compressor
efficiency as isentropic rise / actual rise,
(T2s − T1)/(T2a − T1)·100, and the turbine efficiency as actual drop /
isentropic drop, (T3 − T4a)/(T3 − T4s)·100. -/
theorem c6_amended (rp t1 t3 t4 : ℝ) (hrp : 1 < rp) (ht1 : 0 < t1) (ht3 : 0 < t3) :
    ∃ a2 s2 s4 : ℝ,
      (calculate_brayton_cycle CycleType.Actual (some rp) (some t1) (some t3) (some t4)
          none none none none 1.005 1.4).T2a = some a2 ∧
      (calculate_brayton_cycle CycleType.Actual (some rp) (some t1) (some t3) (some t4)
          none none none none 1.005 1.4).T2s = some s2 ∧
      (calculate_brayton_cycle CycleType.Actual (some rp) (some t1) (some t3) (some t4)
          none none none none 1.005 1.4).T4s = some s4 ∧
      a2 - t1 ≠ 0 ∧ t3 - s4 ≠ 0 ∧
      (calculate_brayton_cycle CycleType.Actual (some rp) (some t1) (some t3) (some t4)
          none none none none 1.005 1.4).calculated_eta_c
        = some ((s2 - t1) / (a2 - t1) * 100) ∧
      (calculate_brayton_cycle CycleType.Actual (some rp) (some t1) (some t3) (some t4)
          none none none none 1.005 1.4).calculated_eta_t
        = some ((t3 - t4) / (t3 - s4) * 100) := by
  have hrp0 : (0 : ℝ) < rp := lt_trans zero_lt_one hrp
  have hx1 : 1 < rp ^ ((2 : ℝ) / 7) := by
    rw [Real.one_lt_rpow_iff_of_pos hrp0]
    exact Or.inl ⟨hrp, by norm_num⟩
  have hy1 : (1 / rp) ^ ((2 : ℝ) / 7) < 1 :=
    Real.rpow_lt_one (by positivity) (by rw [div_lt_one hrp0]; exact hrp) (by norm_num)
  have hA : ¬ (t1 * rp ^ ((2 : ℝ) / 7) - t1 = 0) := by nlinarith
  have hS : ¬ (t3 - t3 * (1 / rp) ^ ((2 : ℝ) / 7) = 0) := by nlinarith
  have hT : ¬ (t3 - t3 * rp⁻¹ ^ ((2 : ℝ) / 7) = 0) := by rw [← one_div]; exact hS
  refine ⟨t1 * rp ^ ((2 : ℝ) / 7), t1 * rp ^ ((2 : ℝ) / 7), t3 * (1 / rp) ^ ((2 : ℝ) / 7),
    ?_, ?_, ?_, hA, hS, ?_, ?_⟩ <;>
  · delta calculate_brayton_cycle
    norm_num
    try exact fun h => absurd h hA
    try exact fun h => absurd h hT

/-- Witness for `c6_amended` at r_p = 128, T1 = 300 K, T3 = 1200 K,
T4 = 500 K. -/
theorem c6_witness :
    ((1 : ℝ) < 128 ∧ (0 : ℝ) < 300 ∧ (0 : ℝ) < 1200) ∧
    ∃ a2 s2 s4 : ℝ,
      (calculate_brayton_cycle CycleType.Actual (some 128) (some 300) (some 1200)
          (some 500) none none none none 1.005 1.4).T2a = some a2 ∧
      (calculate_brayton_cycle CycleType.Actual (some 128) (some 300) (some 1200)
          (some 500) none none none none 1.005 1.4).T2s = some s2 ∧
      (calculate_brayton_cycle CycleType.Actual (some 128) (some 300) (some 1200)
          (some 500) none none none none 1.005 1.4).T4s = some s4 ∧
      a2 - 300 ≠ 0 ∧ 1200 - s4 ≠ 0 ∧
      (calculate_brayton_cycle CycleType.Actual (some 128) (some 300) (some 1200)
          (some 500) none none none none 1.005 1.4).calculated_eta_c
        = some ((s2 - 300) / (a2 - 300) * 100) ∧
      (calculate_brayton_cycle CycleType.Actual (some 128) (some 300) (some 1200)
          (some 500) none none none none 1.005 1.4).calculated_eta_t
        = some ((1200 - 500) / (1200 - s4) * 100) :=
  ⟨⟨by norm_num, by norm_num, by norm_num⟩,
    c6_amended 128 300 1200 500 (by norm_num) (by norm_num) (by norm_num)⟩

/-! ## Brayton cycle, combined-app variant (`mechanical_cycles.py`,
`brayton` inside `brayton_cycle_app`)

This variant stores its outputs in a dictionary `r` via two `r.update`
calls (plus two direct key assignments for an Actual cycle).  To reason
about claim C5 — "each CycleResult field is assigned at most once" — the
embedding returns the SEQUENCE of dictionary-key assignments, in source
order, as a list of (key, value) pairs; the final dictionary value of a
key is the last entry for that key.  Python truthiness guards the power
block (`if P_MW or m_kgph`); giving exactly one of the two then raises a
`TypeError` on `None` arithmetic, modelled as an explicit error.  The
division guards inside the power block (`m_kgph / 3600`, `wc`,
`T2a - T1`) are total here; the claims evaluate this function only where
those denominators are nonzero. -/

inductive BKey where
  | T1 : BKey
  | T3 : BKey
  | rp : BKey
  | T2s : BKey
  | T4s : BKey
  | T2a : BKey
  | T4a : BKey
  | w_c : BKey
  | w_t : BKey
  | w_net : BKey
  | q_in : BKey
  | q_out : BKey
  | eff : BKey
  | eta_c : BKey
  | eta_t : BKey
deriving DecidableEq

noncomputable def brayton (cycle : CycleType) (rp T1 T3 : ℝ)
    (T4 eta_c eta_t P_MW m_kgph : Option ℝ) : Except String (List (BKey × ℝ)) :=
  let e_c : ℝ := match cycle, eta_c with
    | CycleType.Actual, some e => if e ≠ 0 then e / 100 else 1
    | _, _ => 1
  let e_t : ℝ := match cycle, eta_t with
    | CycleType.Actual, some e => if e ≠ 0 then e / 100 else 1
    | _, _ => 1
  let k : ℝ := 1.4
  let cp : ℝ := 1.005
  let T2s := T1 * rp ^ ((k - 1) / k)
  let T4s := T3 / rp ^ ((k - 1) / k)
  let T2a := T1 + (T2s - T1) / e_c
  let T4a := match T4 with
    | some t4 => t4
    | none => T3 - (T3 - T4s) * e_t
  let wc := cp * (T2a - T1)
  let wt := cp * (T3 - T4a)
  let wnet := wt - wc
  let qin := cp * (T3 - T2a)
  let qout := cp * (T4a - T1)
  let eff := if qin ≠ 0 then wnet / qin * 100 else 0
  let base : List (BKey × ℝ) :=
    [(BKey.T1, T1), (BKey.T3, T3), (BKey.rp, rp), (BKey.T2s, T2s), (BKey.T4s, T4s),
     (BKey.T2a, T2a), (BKey.T4a, T4a), (BKey.w_c, wc), (BKey.w_t, wt),
     (BKey.w_net, wnet), (BKey.q_in, qin), (BKey.q_out, qout), (BKey.eff, eff)]
  let pTruthy : Prop := match P_MW with
    | some p => p ≠ 0
    | none => False
  let mTruthy : Prop := match m_kgph with
    | some mq => mq ≠ 0
    | none => False
  if pTruthy ∨ mTruthy then
    match P_MW, m_kgph with
    | some p, some mq =>
      let wnet2 := p * 1000 / (mq / 3600)
      let wc2 := wt - wnet2
      let T2a2 := wc2 / cp + T1
      let eta_c2 := cp * (T2s - T1) / wc2 * 100
      let qin2 := cp * (T3 - T2a2)
      let tr := base ++
        [(BKey.w_net, wnet2), (BKey.w_c, wc2), (BKey.q_in, qin2), (BKey.T2a, T2a2)]
      match cycle with
      | CycleType.Actual =>
        .ok (tr ++
          [(BKey.eta_c, if eta_c2 ≠ 0 then eta_c2 else (T2s - T1) / (T2a2 - T1) * 100),
           (BKey.eta_t, match eta_t with
             | some e => if e ≠ 0 then e else (T3 - T4a) / (T3 - T4s) * 100
             | none => (T3 - T4a) / (T3 - T4s) * 100)])
      | CycleType.Ideal => .ok tr
    | _, _ => .error "TypeError: unsupported operand"
  else
    match cycle with
    | CycleType.Actual =>
      .ok (base ++
        [(BKey.eta_c, match eta_c with
           | some e => if e ≠ 0 then e else (T2s - T1) / (T2a - T1) * 100
           | none => (T2s - T1) / (T2a - T1) * 100),
         (BKey.eta_t, match eta_t with
           | some e => if e ≠ 0 then e else (T3 - T4a) / (T3 - T4s) * 100
           | none => (T3 - T4a) / (T3 - T4s) * 100)])
    | CycleType.Ideal => .ok base

def braytonTraceOf (x : Except String (List (BKey × ℝ))) : List (BKey × ℝ) :=
  match x with
  | .ok l => l
  | .error _ => []

/-- C5: the claim fails on the combined-app Brayton solver: with both
net power and mass flow given (Ideal cycle, r_p = 1, T1 = 300,
T3 = 1200, 1 MW, 3600 kg/hr), the assignment trace writes w_net twice —
first 0 (from the temperatures) and then 1000 (from power/mass flow) —
and likewise rewrites w_c, q_in and T2a, so the key sequence is not
duplicate-free. -/
theorem c5_counterexample :
    braytonTraceOf (brayton CycleType.Ideal 1 300 1200 none none none (some 1) (some 3600))
      = [(BKey.T1, 300), (BKey.T3, 1200), (BKey.rp, 1), (BKey.T2s, 300), (BKey.T4s, 1200),
         (BKey.T2a, 300), (BKey.T4a, 1200), (BKey.w_c, 0), (BKey.w_t, 0), (BKey.w_net, 0),
         (BKey.q_in, 904.5), (BKey.q_out, 904.5), (BKey.eff, 0),
         (BKey.w_net, 1000), (BKey.w_c, -1000), (BKey.q_in, 1904.5),
         (BKey.T2a, -139700 / 201)] ∧
    ¬ (List.map Prod.fst (braytonTraceOf (brayton CycleType.Ideal 1 300 1200 none none
        none (some 1) (some 3600)))).Nodup := by
  have h : braytonTraceOf (brayton CycleType.Ideal 1 300 1200 none none none (some 1)
      (some 3600))
      = [(BKey.T1, 300), (BKey.T3, 1200), (BKey.rp, 1), (BKey.T2s, 300), (BKey.T4s, 1200),
         (BKey.T2a, 300), (BKey.T4a, 1200), (BKey.w_c, 0), (BKey.w_t, 0), (BKey.w_net, 0),
         (BKey.q_in, 904.5), (BKey.q_out, 904.5), (BKey.eff, 0),
         (BKey.w_net, 1000), (BKey.w_c, -1000), (BKey.q_in, 1904.5),
         (BKey.T2a, -139700 / 201)] := by
    delta brayton
    norm_num [braytonTraceOf]
  refine ⟨h, ?_⟩
  rw [h]
  decide

/-- C5 (amended): when the power/mass-flow block does not run (neither
net power nor mass flow is truthy), every dictionary key is assigned at
most once by the combined-app Brayton solver: the key sequence of the
assignment trace is duplicate-free. -/
theorem c5_amended (cycle : CycleType) (rp T1 T3 : ℝ)
    (T4 eta_c eta_t P_MW m_kgph : Option ℝ)
    (hp : P_MW = none ∨ P_MW = some 0) (hm : m_kgph = none ∨ m_kgph = some 0) :
    ((braytonTraceOf (brayton cycle rp T1 T3 T4 eta_c eta_t P_MW m_kgph)).map
        Prod.fst).Nodup := by
  rcases hp with rfl | rfl <;> rcases hm with rfl | rfl <;> rcases cycle <;>
  · delta brayton
    norm_num [braytonTraceOf]
    refine ⟨?_, ?_⟩ <;> simp

/-- Witness for `c5_amended` on an Actual cycle with no power data. -/
theorem c5_witness :
    ((none : Option ℝ) = none ∨ (none : Option ℝ) = some 0) ∧
    ((braytonTraceOf (brayton CycleType.Actual 1 300 1200 none none none none
        none)).map Prod.fst).Nodup :=
  ⟨Or.inl rfl, c5_amended CycleType.Actual 1 300 1200 none none none none none
    (Or.inl rfl) (Or.inl rfl)⟩

/-- Closed form of the Otto efficiency: the code's efficiency equals
(1 − r^(−(k−1)))·100, independent of Qin, T1 and P1. -/
lemma ottoSolve_efficiency_eq (r qin t1 p1 : ℝ) (hr : 0 < r) (hq : qin ≠ 0) :
    (ottoSolve r qin t1 p1).efficiency = (1 - 1 / r ^ ((2 : ℝ) / 5)) * 100 := by
  have hx0 : (0 : ℝ) < r ^ ((2 : ℝ) / 5) := Real.rpow_pos_of_pos hr _
  simp only [ottoSolve]
  rw [show (1.4 : ℝ) - 1 = 2 / 5 by norm_num]
  field_simp
  ring

/-- Closed form of the Ideal Brayton thermal efficiency: whenever the
solver reports one, it equals (1 − r_p^(−(k−1)/k))·100. -/
lemma brayton_ideal_te_eq (r t1 t3 e : ℝ) (hr : 0 < r)
    (hB : (calculate_brayton_cycle CycleType.Ideal (some r) (some t1) (some t3) none none
        none none none 1.005 1.4).thermal_efficiency = some e) :
    e = (1 - r⁻¹ ^ ((2 : ℝ) / 7)) * 100 := by
  delta calculate_brayton_cycle at hB
  norm_num at hB
  obtain ⟨hq, hv⟩ := hB
  have ha0 : (0 : ℝ) < r ^ ((2 : ℝ) / 7) := Real.rpow_pos_of_pos hr _
  have hu : r⁻¹ ^ ((2 : ℝ) / 7) * r ^ ((2 : ℝ) / 7) = 1 := by
    rw [Real.inv_rpow hr.le]
    exact inv_mul_cancel₀ ha0.ne'
  have hD : (201 / 200 : ℝ) * (t3 - t1 * r ^ ((2 : ℝ) / 7)) ≠ 0 := by
    intro h
    rcases mul_eq_zero.mp h with h' | h'
    · norm_num at h'
    · exact hq h'
  rw [← hv, div_mul_eq_mul_div, div_eq_iff hD]
  linear_combination (-(201 / 2 : ℝ) * t1) * hu

/-- C9: with k = 1.4 and all other inputs fixed, the computed thermal
efficiency of the Otto solver and of the Ideal Brayton solver is
strictly increasing in the compression/pressure ratio, for every pair
of ratios 1 < r < r' (for Otto, with nonzero heat input and positive
T1, P1 so the source divides by nothing zero; for Brayton, whenever the
solver computes an efficiency at both ratios). -/
theorem c9_monotonicity :
    (∀ r r' qin t1 p1 : ℝ, 1 < r → r < r' → qin ≠ 0 → 0 < t1 → 0 < p1 →
        (ottoSolve r qin t1 p1).efficiency < (ottoSolve r' qin t1 p1).efficiency) ∧
    (∀ r r' t1 t3 e e' : ℝ, 1 < r → r < r' →
        (calculate_brayton_cycle CycleType.Ideal (some r) (some t1) (some t3) none none
            none none none 1.005 1.4).thermal_efficiency = some e →
        (calculate_brayton_cycle CycleType.Ideal (some r') (some t1) (some t3) none none
            none none none 1.005 1.4).thermal_efficiency = some e' →
        e < e') := by
  constructor
  · intro r r' qin t1 p1 h1 h2 hq ht1 hp1
    have hr0 : (0 : ℝ) < r := lt_trans one_pos h1
    have hr0' : (0 : ℝ) < r' := lt_trans hr0 h2
    rw [ottoSolve_efficiency_eq r qin t1 p1 hr0 hq,
      ottoSolve_efficiency_eq r' qin t1 p1 hr0' hq]
    have hx : r ^ ((2 : ℝ) / 5) < r' ^ ((2 : ℝ) / 5) :=
      Real.rpow_lt_rpow hr0.le h2 (by norm_num)
    have hx0 : (0 : ℝ) < r ^ ((2 : ℝ) / 5) := Real.rpow_pos_of_pos hr0 _
    have hx0' : (0 : ℝ) < r' ^ ((2 : ℝ) / 5) := Real.rpow_pos_of_pos hr0' _
    have key : 1 / r' ^ ((2 : ℝ) / 5) < 1 / r ^ ((2 : ℝ) / 5) := by
      rw [div_lt_div_iff hx0' hx0]
      nlinarith
    linarith
  · intro r r' t1 t3 e e' h1 h2 hB hB'
    have hr0 : (0 : ℝ) < r := lt_trans one_pos h1
    have hr0' : (0 : ℝ) < r' := lt_trans hr0 h2
    rw [brayton_ideal_te_eq r t1 t3 e hr0 hB,
      brayton_ideal_te_eq r' t1 t3 e' hr0' hB']
    have hinv : r'⁻¹ < r⁻¹ := by
      rw [← one_div, ← one_div, div_lt_div_iff hr0' hr0]
      nlinarith
    have hu : r'⁻¹ ^ ((2 : ℝ) / 7) < r⁻¹ ^ ((2 : ℝ) / 7) :=
      Real.rpow_lt_rpow (by positivity) hinv (by norm_num)
    linarith

/-- Witness for `c9_monotonicity`: Otto at r = 32 versus r' = 1024, and
Ideal Brayton at r_p = 128 (efficiency 75 %) versus r_p' = 16384
(efficiency 93.75 %), with T1 = 300 K, T3 = 2400 K. -/
theorem c9_witness :
    ((1 : ℝ) < 32 ∧ (32 : ℝ) < 1024 ∧ (800 : ℝ) ≠ 0 ∧ (1 : ℝ) < 128 ∧
      (128 : ℝ) < 16384) ∧
    (ottoSolve 32 800 300 100).efficiency < (ottoSolve 1024 800 300 100).efficiency ∧
    (calculate_brayton_cycle CycleType.Ideal (some 128) (some 300) (some 2400) none none
        none none none 1.005 1.4).thermal_efficiency = some 75 ∧
    (calculate_brayton_cycle CycleType.Ideal (some 16384) (some 300) (some 2400) none none
        none none none 1.005 1.4).thermal_efficiency = some 93.75 ∧
    (75 : ℝ) < 93.75 := by
  have hB : (calculate_brayton_cycle CycleType.Ideal (some 128) (some 300) (some 2400)
      none none none none none 1.005 1.4).thermal_efficiency = some 75 := by
    delta calculate_brayton_cycle
    norm_num [rpow_128_two_sevenths, rpow_inv128_two_sevenths]
  have hB' : (calculate_brayton_cycle CycleType.Ideal (some 16384) (some 300) (some 2400)
      none none none none none 1.005 1.4).thermal_efficiency = some 93.75 := by
    delta calculate_brayton_cycle
    norm_num [rpow_16384_two_sevenths, rpow_inv16384_two_sevenths]
  exact ⟨⟨by norm_num, by norm_num, by norm_num, by norm_num, by norm_num⟩,
    c9_monotonicity.1 32 1024 800 300 100 (by norm_num) (by norm_num) (by norm_num)
      (by norm_num) (by norm_num),
    hB, hB',
    c9_monotonicity.2 128 16384 300 2400 75 93.75 (by norm_num) (by norm_num) hB hB'⟩

/-- Witness for `c1_amended`, instantiating both parts. -/
theorem c1_witness :
    solve_dual_cycle none (some 2) (some 2) none (some 100) (some 300) none
      = DualOutput.err "Insufficient or inconsistent inputs." ∧
    solve_diesel_cycle (some 8) none none none none none none = DieselOutput.noResult :=
  ⟨c1_amended.1 (some 2) (some 2) none (some 100) (some 300) none, c1_amended.2 8⟩

/-- Witness for `c3_unity_efficiency_matches_ideal` at r_p = 1,
T1 = 300 K, T3 = 1200 K with the default air constants. -/
theorem c3_witness :
    (calculate_brayton_cycle CycleType.Actual (some 1) (some 300) (some 1200) none
        (some 100) (some 100) none none 1.005 1.4).T2s
      = (calculate_brayton_cycle CycleType.Ideal (some 1) (some 300) (some 1200) none
          none none none none 1.005 1.4).T2s :=
  (c3_unity_efficiency_matches_ideal 1 300 1200 none none none 1.005 1.4).1
